import Mathlib

/-!
A shallow embedding, in Lean 4, of the symptom-triage service of this
repository (files `services/model.py`, `services/diagnosis.py`,
`schema/responses/diagnosis.py` and the diagnosis route of `main.py`),
together with theorems settling the frozen claims about it.

Conventions of the embedding:
* Python strings become Lean `String`. The string primitives the code
  uses — `str.lower()`, the single-character `str.replace(" ", "_")`,
  `str.strip()`, `int(...)` — are defined here structurally on the
  character list of the string (`strLower`, `strReplaceChar`,
  `strTrim`, `pyInt?`), so that every definition evaluates by plain
  reduction; they implement the ASCII behaviour, which covers every
  symptom and disease name the service handles.
* Python dictionaries (whose iteration order is insertion order) become
  association lists `List (String × α)`; assignment `d[k] = v` becomes
  `dictInsert`, which overwrites in place or appends at the end, exactly
  as a Python dict does.
* Functions that may raise become `Except String α`; functions whose
  Python bodies wrap everything in `try/except` and return a sentinel
  are total and return the sentinel directly.
* Floating-point division in the severity score becomes exact division
  in `ℚ`; machine floats and rationals agree on every band comparison
  for the small integer weights and day counts the service receives.
* The parts of the program that live inside external libraries
  (file system, pandas, scikit-learn training, the SVM predictor, the
  outbound HTTP call) are supplied as explicit inputs: a `LoadWorld`
  record of step outcomes for the loader, an abstract prediction
  function for the SVM, an `UpstreamReply` for the persistence call.
  The decision tree itself is an explicit inductive tree, since the
  code traverses its node arrays directly.
-/

namespace GroundShakers

/-! ## String helpers -/

/-- Embeds `s.lower()`: ASCII case folding over the character list. -/
def strLower (s : String) : String :=
  String.mk (s.toList.map Char.toLower)

/-- Embeds `s.replace(a, b)` for a one-character pattern and replacement —
the only form the code uses (`replace(" ", "_")`). -/
def strReplaceChar (s : String) (a b : Char) : String :=
  String.mk (s.toList.map (fun c => if c == a then b else c))

/-- Whitespace as `str.strip()` sees it (the ASCII part). -/
def isPyWS (c : Char) : Bool :=
  c == ' ' || c == '\t' || c == '\n' || c == '\r' ||
    c == Char.ofNat 11 || c == Char.ofNat 12

/-- Embeds `s.strip()`: drop leading and trailing whitespace. -/
def strTrim (s : String) : String :=
  String.mk (((s.toList.dropWhile isPyWS).reverse.dropWhile isPyWS).reverse)

/-- Embeds `symptom.replace(" ", "_").lower()`, the symptom normalization
used throughout `services/model.py`. -/
def normLower (s : String) : String :=
  strLower (strReplaceChar s ' ' '_')

/-- Value of one decimal digit. -/
def charDigit (c : Char) : Option Nat :=
  if '0' ≤ c && c ≤ '9' then some (c.toNat - 48) else none

/-- Value of a nonempty all-digit character list. -/
def digitsVal (cs : List Char) : Option Nat :=
  if cs.isEmpty then none
  else cs.foldl
    (fun acc c =>
      match acc, charDigit c with
      | some n, some d => some (10 * n + d)
      | _, _ => none)
    (some 0)

/-- Python `int(s)` on a string: strip whitespace, optional sign,
decimal digits; `none` embeds the `ValueError` it raises otherwise. -/
def pyInt? (s : String) : Option Int :=
  match strTrim s with
  | ⟨'-' :: rest⟩ => (digitsVal rest).map (fun n => -(n : Int))
  | ⟨'+' :: rest⟩ => (digitsVal rest).map (fun n => (n : Int))
  | ⟨cs⟩ => (digitsVal cs).map (fun n => (n : Int))

/-- Boolean test that `p` is a prefix of `s` (on character lists). -/
def pfxOf : List Char → List Char → Bool
  | [], _ => true
  | _ :: _, [] => false
  | a :: as, b :: bs => a == b && pfxOf as bs

/-- Boolean substring test on character lists. -/
def subChars (pat : List Char) : List Char → Bool
  | [] => pfxOf pat []
  | c :: rest => pfxOf pat (c :: rest) || subChars pat rest

/-- Here `subStr pat s` embeds `re.search(pat, s)` for a pattern `pat` that
contains no regex metacharacter: such a search succeeds exactly when
`pat` occurs in `s` as a contiguous substring. -/
def subStr (pat s : String) : Bool :=
  subChars pat.toList s.toList

/-- The regex metacharacters of Python's `re` module; queries free of
them are matched by `re.search` exactly as literal substrings. -/
def regexMeta : List Char :=
  ['\\', '.', '^', '$', '*', '+', '?', '(', ')', '[', ']',
   Char.ofNat 123, Char.ofNat 125, '|']

/-- A string that `re.compile` treats as a literal. -/
def regexLiteral (s : String) : Bool :=
  s.toList.all (fun c => !(regexMeta.contains c))

/-! ## Association lists with Python-dict semantics -/

/-- First value stored under key `k` (Python `d.get(k)` / `d[k]`). -/
def lookupKey (d : List (String × α)) (k : String) : Option α :=
  (d.find? (fun p => p.1 == k)).map (fun p => p.2)

/-- Python `d[k] = v`: overwrite in place when the key is present,
append at the end otherwise (insertion-order iteration). -/
def dictInsert (d : List (String × α)) (k : String) (v : α) : List (String × α) :=
  if d.any (fun p => p.1 == k) then
    d.map (fun p => if p.1 == k then (k, v) else p)
  else
    d ++ [(k, v)]

/-! ## Data model (`schema/responses/model.py`, module globals of
`services/model.py`) -/

/-- Structure `ModelMetrics` of `schema/responses/model.py`; the float accuracy
figures are carried as rationals. -/
structure ModelMetrics where
  decision_tree_accuracy : ℚ
  svm_accuracy : ℚ
  cross_validation_mean : ℚ
  total_symptoms : Nat
  total_diseases : Nat
deriving DecidableEq

/-- Structure `ModelStatus` of `schema/responses/model.py`; the `last_loaded`
ISO timestamp string is abstracted to the instant it records. -/
structure ModelStatus where
  loaded : Bool
  last_loaded : Option Nat
  data_path : String
  master_data_path : String
  metrics : Option ModelMetrics
deriving DecidableEq

/-- A trained decision tree, as `get_primary_diagnosis` reads it
through `tree_.feature`, `children_left`, `children_right` and
`value`: internal nodes carry a feature index, leaves carry the stored
class-probability masses `tree.value[node][0]`. -/
inductive DTree where
  | leaf (values : List ℚ)
  | node (featureIdx : Nat) (left right : DTree)

/-- The training file, as the loader consumes it: its column list (the
final column is `prognosis`) and the contents of the `prognosis`
column. -/
structure TrainingData where
  columns : List String
  prognosis : List String

/-- The `ml_models` dictionary as populated by `load_models_and_data`
(the entries the rest of the code reads; `reduced_data` is derived
from `training_data` and read nowhere). The SVM predictor is kept
abstract: it maps a 0/1 feature vector to an encoded class index. -/
structure MLModels where
  decision_tree : DTree
  svm : List Nat → Nat
  training_data : TrainingData

/-- The module-level globals of `services/model.py`: `ml_models` (the
empty dict before a load becomes `none`), the three tables of
`data_dictionaries`, `symptoms_dict`, `feature_names`, `label_encoder`
(its fitted, sorted class list; `none` embeds the unfitted `None`) and
`model_status`. -/
structure ModuleState where
  ml_models : Option MLModels
  severity : List (String × Int)
  descriptions : List (String × String)
  precautions : List (String × List String)
  symptoms_dict : List (String × Nat)
  feature_names : List String
  label_encoder : Option (List String)
  model_status : ModelStatus

/-- The state the module starts in (lines 27–35 of
`services/model.py`). -/
def initialState : ModuleState :=
  { ml_models := none
    severity := []
    descriptions := []
    precautions := []
    symptoms_dict := []
    feature_names := []
    label_encoder := none
    model_status :=
      { loaded := false, last_loaded := none, data_path := "data/",
        master_data_path := "master-data/", metrics := none } }

/-! ## `search_symptoms` (`services/model.py`, lines 190–222) -/

/-- The `for symptom in feature_names` loop of `search_symptoms`: an
exact (case-insensitive) match is inserted at position 0 of the
accumulated matches, a substring match is appended at the end. -/
def searchLoop (term : String) : List String → List String → Bool → List String × Bool
  | [], ms, ex => (ms, ex)
  | f :: rest, ms, ex =>
    if strLower f == term then searchLoop term rest (f :: ms) true
    else if subStr term (strLower f) then searchLoop term rest (ms ++ [f]) ex
    else searchLoop term rest ms ex

/-- The duplicate-removal loop of `search_symptoms`: keep the first
occurrence of each element, preserving order (`seen` is the set of
elements already emitted). -/
def dedupKeep (seen : List String) : List String → List String
  | [] => []
  | x :: xs => if x ∈ seen then dedupKeep seen xs else x :: dedupKeep (x :: seen) xs

/-- Embeds `search_symptoms(symptom_query, max_matches)`: raises when the
models are not loaded; otherwise normalizes the query
(`replace(" ", "_").lower()` — the source does **not** strip it),
walks the feature list, deduplicates and truncates. The source
compiles the normalized query with `re.compile`, which raises
`re.error` on a non-literal pattern such as `ab(` and has no handler
here; that error path is outside this embedding, so the theorems
about its loaded behaviour quantify only over queries whose
normalized form satisfies `regexLiteral` (or use concrete literal
queries), under which `re.search` is exactly the substring test used
below. -/
def searchSymptoms (st : ModuleState) (symptomQuery : String) (maxMatches : Nat) :
    Except String (List String × Bool) :=
  if !st.model_status.loaded then Except.error "Models not loaded"
  else
    let searchTerm := normLower symptomQuery
    let r := searchLoop searchTerm st.feature_names [] false
    Except.ok ((dedupKeep [] r.1).take maxMatches, r.2)

/-! ## `get_primary_diagnosis` (`services/model.py`, lines 225–254) -/

/-- The scan of `np.argmax`: keep the earliest index whose value no
later value strictly exceeds. -/
def argmaxGo (best : Nat) (bestVal : ℚ) (i : Nat) : List ℚ → Nat
  | [] => best
  | x :: xs => if bestVal < x then argmaxGo i x (i + 1) xs else argmaxGo best bestVal (i + 1) xs

/-- Embeds `np.argmax` on a probability row; `none` embeds the exception it
raises on an empty row. -/
def npArgmax : List ℚ → Option Nat
  | [] => none
  | x :: xs => some (argmaxGo 0 x 1 xs)

/-- The inner `recurse` of `get_primary_diagnosis`. Internal node:
look up the node's feature name (an out-of-range index raises, which
the enclosing handler turns into `"Unknown"`), descend right exactly
when it equals the queried symptom case-insensitively, left otherwise.
Leaf: take the class of highest stored probability mass and decode it
through the label encoder; any lookup failure again yields
`"Unknown"`. -/
def treeRecurse (featureNames : List String) (labelEnc : Option (List String))
    (symptom : String) : DTree → String
  | DTree.node fi l r =>
    match featureNames.get? fi with
    | none => "Unknown"
    | some name =>
      if strLower name == strLower symptom then treeRecurse featureNames labelEnc symptom r
      else treeRecurse featureNames labelEnc symptom l
  | DTree.leaf values =>
    match npArgmax values with
    | none => "Unknown"
    | some idx =>
      match labelEnc with
      | none => "Unknown"
      | some classes =>
        match classes.get? idx with
        | none => "Unknown"
        | some disease => disease

/-- Embeds `get_primary_diagnosis(symptom)`: raises when not loaded; inside
the `try` block, a missing `decision_tree` entry (the pre-load empty
`ml_models`) raises and is caught, yielding `"Unknown"`. -/
def getPrimaryDiagnosis (st : ModuleState) (symptom : String) : Except String String :=
  if !st.model_status.loaded then Except.error "Models not loaded"
  else
    match st.ml_models with
    | none => Except.ok "Unknown"
    | some m => Except.ok (treeRecurse st.feature_names st.label_encoder symptom m.decision_tree)

/-! ## `get_secondary_diagnosis` (`services/model.py`, lines 257–282) -/

/-- Embeds `input_vector[i] = 1` on a 0/1 vector held as a list. -/
def setIdx : List Nat → Nat → List Nat
  | [], _ => []
  | _ :: xs, 0 => 1 :: xs
  | x :: xs, n + 1 => x :: setIdx xs n

/-- Embeds `get_secondary_diagnosis(symptoms)`: build a 0/1 vector over the
feature list (first case-insensitive match per symptom wins), feed it
to the SVM, decode; internal failures yield `"Unknown"`. -/
def getSecondaryDiagnosis (st : ModuleState) (symptoms : List String) : Except String String :=
  if !st.model_status.loaded then Except.error "Models not loaded"
  else
    let vec0 := List.replicate st.feature_names.length 0
    let vec := symptoms.foldl
      (fun v symptom =>
        let normalized := normLower symptom
        match st.feature_names.findIdx? (fun f => strLower f == normalized) with
        | some i => setIdx v i
        | none => v)
      vec0
    match st.ml_models, st.label_encoder with
    | some m, some classes =>
      match classes.get? (m.svm vec) with
      | some disease => Except.ok disease
      | none => Except.ok "Unknown"
    | _, _ => Except.ok "Unknown"

/-! ## `calculate_severity` (`services/model.py`, lines 285–318) -/

/-- The inner `for severity_key in data_dictionaries["severity"]`
loop: the weight of the first table entry whose key matches the
normalized symptom case-insensitively. -/
def findSeverityWeight (table : List (String × Int)) (normalized : String) : Option Int :=
  (table.find? (fun p => strLower p.1 == normalized)).map (fun p => p.2)

/-- The severity messages, verbatim. -/
def severityNoMatchMsg : String := "Unable to assess severity - no matching symptoms found"

def severityHighMsg : String := "High - Consult a doctor immediately"

def severityModerateMsg : String := "Moderate - Consider medical consultation"

def severityLowMsg : String := "Low - Monitor symptoms and take precautions"

/-- Embeds `calculate_severity(symptoms, days)`. The Python body is wrapped
in `try/except`, so the function is total; the embedded body can raise
nothing, so the `except` branch (`"Unable to assess severity due to
processing error"`) is unreachable here. Division is the exact
rational counterpart of the float division in the source. -/
def calculateSeverity (st : ModuleState) (symptoms : List String) (days : Int) : String :=
  let acc := symptoms.foldl
    (fun (acc : Int × Nat) symptom =>
      let normalized := normLower symptom
      match findSeverityWeight st.severity normalized with
      | some w => (acc.1 + w, acc.2 + 1)
      | none => acc)
    (0, 0)
  if acc.2 = 0 then severityNoMatchMsg
  else
    let score : ℚ := ((acc.1 * days : Int) : ℚ) / ((acc.2 : ℚ) + 1)
    if 13 < score then severityHighMsg
    else if 7 < score then severityModerateMsg
    else severityLowMsg

/-! ## Lookup and status accessors (`services/model.py`, lines 321–363) -/

/-- Embeds `get_disease_description(disease)`. -/
def getDiseaseDescription (st : ModuleState) (disease : String) : String :=
  (lookupKey st.descriptions disease).getD "No description available"

/-- Embeds `get_disease_precautions(disease)`. -/
def getDiseasePrecautions (st : ModuleState) (disease : String) : List String :=
  (((lookupKey st.precautions disease).getD ["Consult a healthcare professional"]).map
    strTrim).filter (fun p => p ≠ "")

/-- Embeds `get_available_symptoms()`. -/
def getAvailableSymptoms (st : ModuleState) : List String :=
  if st.model_status.loaded then st.feature_names else []

/-- Embeds `validate_symptom(symptom)`. -/
def validateSymptom (st : ModuleState) (symptom : String) : Bool :=
  st.model_status.loaded &&
    st.feature_names.any (fun f => strLower f == normLower symptom)

/-! ## Business logic (`services/diagnosis.py`) -/

/-- Structure `DiagnosisRequest` of `schema/requests/diagnosis.py` (admission
bounds on `days_experiencing` live in the route validator, not
here). -/
structure DiagnosisRequest where
  initial_symptom : String
  days_experiencing : Int
  additional_symptoms : List String
  user_id : String

/-- Structure `DiagnosisResponse` of `schema/responses/diagnosis.py`. -/
structure DiagnosisResponse where
  primary_diagnosis : String
  secondary_diagnosis : Option String
  confidence_level : String
  description : String
  precautions : List String
  severity_assessment : String
deriving DecidableEq

/-- Embeds `normalize_symptom` (`services/diagnosis.py`, line 137). -/
def normalizeSymptom (symptom : String) : String :=
  normLower (strTrim symptom)

/-- Embeds `find_matching_symptom` (`services/diagnosis.py`, lines 140–163):
first an exact case-insensitive scan of the catalog, then a regex
substring scan. -/
def findMatchingSymptom (st : ModuleState) (normalized : String) : Option String :=
  let available := getAvailableSymptoms st
  match available.find? (fun s => strLower s == normalized) with
  | some s => some s
  | none => available.find? (fun s => subStr normalized (strLower s))

/-- Embeds `calculate_confidence_level` (`services/diagnosis.py`,
lines 166–191). -/
def calculateConfidenceLevel (primaryDiagnosis secondaryDiagnosis : String)
    (symptomCount : Nat) : String :=
  if primaryDiagnosis = secondaryDiagnosis then
    if 3 ≤ symptomCount then "High"
    else if 2 ≤ symptomCount then "Moderate"
    else "Low"
  else
    if 4 ≤ symptomCount then "Moderate"
    else "Low"

/-- Embeds `process_diagnosis_request` (`services/diagnosis.py`,
lines 42–124). The `ValueError` for an unmatched symptom (whose Python
message interpolates the symptom name) and the `RuntimeError` wrapper
around other failures become `Except.error` values. -/
def processDiagnosisRequest (st : ModuleState) (req : DiagnosisRequest) :
    Except String DiagnosisResponse :=
  let normalized := normalizeSymptom req.initial_symptom
  match findMatchingSymptom st normalized with
  | none => Except.error "Symptom not found in database"
  | some matching =>
    match getPrimaryDiagnosis st matching with
    | Except.error e => Except.error ("Error processing diagnosis: " ++ e)
    | Except.ok primary =>
      let allSymptoms := matching :: req.additional_symptoms.map normalizeSymptom
      let validSymptoms := allSymptoms.filter (fun s => validateSymptom st s)
      match getSecondaryDiagnosis st validSymptoms with
      | Except.error e => Except.error ("Error processing diagnosis: " ++ e)
      | Except.ok secondary =>
        let confidence := calculateConfidenceLevel primary secondary validSymptoms.length
        let severity := calculateSeverity st validSymptoms req.days_experiencing
        let includeSecondary :=
          secondary ≠ primary ∧ secondary ≠ "Unknown" ∧ confidence = "Moderate"
        Except.ok
          { primary_diagnosis := primary
            secondary_diagnosis := if includeSecondary then some secondary else none
            confidence_level := confidence
            description := getDiseaseDescription st primary
            precautions := getDiseasePrecautions st primary
            severity_assessment := severity }

/-! ## The loader (`services/model.py`, lines 38–187)

External effects — the file system, `pd.read_csv`, the scikit-learn
training calls — are supplied by a `LoadWorld`: for every step that
can raise inside the library, the world records either the value the
step produced or that it raised. -/

/-- Outcomes of the external steps of one `load_models_and_data`
call. `train_test_split` raises on degenerate datasets (`splitOk`),
`cross_val_score` with `cv=3` raises on too-few samples per class
(`metricsResult`), and so on. -/
structure LoadWorld where
  trainingExists : Bool
  testingExists : Bool
  readTraining : Except Unit TrainingData
  readTesting : Except Unit TrainingData
  splitOk : Bool
  dtTrain : Except Unit DTree
  svmTrain : Except Unit (List Nat → Nat)
  metricsResult : Except Unit (ℚ × ℚ × ℚ)
  severityRows : Option (List (List String))
  descriptionRows : Option (List (List String))
  precautionRows : Option (List (List String))
  now : Nat

/-- Embeds `label_encoder.fit` then `classes_`: the sorted distinct labels
(`np.unique` of the prognosis column). -/
def insertSorted (x : String) : List String → List String
  | [] => [x]
  | y :: ys => if x ≤ y then x :: y :: ys else y :: insertSorted x ys

/-- Sorted list of the distinct labels, as `LabelEncoder` stores
them. -/
def classesOf (labels : List String) : List String :=
  labels.dedup.foldr insertSorted []

/-- One row of `symptom_severity.csv` inside `load_severity_dict`:
rows shorter than 2 are skipped, a second field that does not parse as
an integer is skipped (`int(row[1])` raising `ValueError`), otherwise
the entry is written into the severity dict. -/
def severityRowStep (d : List (String × Int)) (row : List String) : List (String × Int) :=
  match row with
  | k :: v :: _ =>
    match pyInt? v with
    | some n => dictInsert d k n
    | none => d
  | _ => d

/-- Embeds `load_severity_dict`: a missing file leaves the dict untouched;
otherwise the rows are folded into the **existing** dict. -/
def applySeverityRows : Option (List (List String)) → List (String × Int) → List (String × Int)
  | none, d => d
  | some rows, d => rows.foldl severityRowStep d

/-- One row of `symptom_Description.csv` inside
`load_description_dict`. -/
def descriptionRowStep (d : List (String × String)) (row : List String) :
    List (String × String) :=
  match row with
  | k :: v :: _ => dictInsert d k v
  | _ => d

/-- Embeds `load_description_dict`. -/
def applyDescriptionRows : Option (List (List String)) → List (String × String) →
    List (String × String)
  | none, d => d
  | some rows, d => rows.foldl descriptionRowStep d

/-- One row of `symptom_precaution.csv` inside `load_precaution_dict`:
rows shorter than 5 are skipped, the four precaution cells are
stripped and blank ones dropped. -/
def precautionRowStep (d : List (String × List String)) (row : List String) :
    List (String × List String) :=
  match row with
  | k :: p1 :: p2 :: p3 :: p4 :: _ =>
    dictInsert d k (([p1, p2, p3, p4].map strTrim).filter (fun p => p ≠ ""))
  | _ => d

/-- Embeds `load_precaution_dict`. -/
def applyPrecautionRows : Option (List (List String)) → List (String × List String) →
    List (String × List String)
  | none, d => d
  | some rows, d => rows.foldl precautionRowStep d

/-- The `except` clause of `load_models_and_data`: mark the status
not-loaded and re-raise. -/
def loadFail (st : ModuleState) : Except Unit Bool × ModuleState :=
  (Except.error (), { st with model_status := { st.model_status with loaded := false } })

/-- Embeds `load_models_and_data(data_path, master_data_path)`, with every
global assignment performed at the same point of the control flow as
in the source: the status paths are written before the first fallible
step; `feature_names` is written before the `prognosis` column is
touched; `symptoms_dict` and `label_encoder` before the split; the
model store only after training and metrics succeed; the three lookup
tables are then folded into their existing dicts; finally the status
is marked loaded with fresh metrics. -/
def loadModelsAndData (dataPath masterDataPath : String) (w : LoadWorld)
    (st0 : ModuleState) : Except Unit Bool × ModuleState :=
  let st1 := { st0 with model_status :=
    { st0.model_status with data_path := dataPath, master_data_path := masterDataPath } }
  if !(w.trainingExists && w.testingExists) then loadFail st1
  else
    match w.readTraining with
    | Except.error _ => loadFail st1
    | Except.ok training =>
      match w.readTesting with
      | Except.error _ => loadFail st1
      | Except.ok _testing =>
        let featureNames := training.columns.dropLast
        let st2 := { st1 with feature_names := featureNames }
        if !(training.columns.contains "prognosis") then loadFail st2
        else
          let st3 := { st2 with
            symptoms_dict := featureNames.enum.map (fun (p : Nat × String) => (p.2, p.1)) }
          let classes := classesOf training.prognosis
          let st4 := { st3 with label_encoder := some classes }
          if !w.splitOk then loadFail st4
          else
            match w.dtTrain with
            | Except.error _ => loadFail st4
            | Except.ok dt =>
              match w.svmTrain with
              | Except.error _ => loadFail st4
              | Except.ok svm =>
                match w.metricsResult with
                | Except.error _ => loadFail st4
                | Except.ok metrics =>
                  let mlm : MLModels :=
                    { decision_tree := dt, svm := svm, training_data := training }
                  let st5 := { st4 with ml_models := some mlm }
                  let st6 := { st5 with
                    severity := applySeverityRows w.severityRows st5.severity }
                  let st7 := { st6 with
                    descriptions := applyDescriptionRows w.descriptionRows st6.descriptions }
                  let st8 := { st7 with
                    precautions := applyPrecautionRows w.precautionRows st7.precautions }
                  let st9 := { st8 with model_status := { st8.model_status with
                    loaded := true
                    last_loaded := some w.now
                    metrics := some
                      { decision_tree_accuracy := metrics.1
                        svm_accuracy := metrics.2.1
                        cross_validation_mean := metrics.2.2
                        total_symptoms := featureNames.length
                        total_diseases := classes.length } } }
                  (Except.ok true, st9)

/-! ## Persisted-diagnosis construction
(`schema/responses/diagnosis.py`, lines 5–85, and the tail of the
`/diagnosis` route of `main.py`, lines 290–301) -/

/-- Structure `DiagnosisInDB`: `initial_symptom` is declared `str` but carries
`default=None`, so a missing field yields Python `None` — embedded as
`Option String`. `days_experiencing` defaults to `0`; the three list
fields default to `[]`. All other fields are required. -/
structure DiagnosisInDB where
  id : String
  diagnosed_user_id : String
  primary_diagnosis : String
  secondary_diagnoses : List String
  description : String
  precautions : List String
  severity_assessment : String
  initial_symptom : Option String
  additional_symptoms : List String
  days_experiencing : Int
  confidence_level : String
deriving DecidableEq

/-- The `diagnosis` object of the upstream JSON reply: which fields it
carries (absent JSON keys are `none`). -/
structure DiagFields where
  id : Option String := none
  diagnosed_user_id : Option String := none
  primary_diagnosis : Option String := none
  secondary_diagnoses : Option (List String) := none
  description : Option String := none
  precautions : Option (List String) := none
  severity_assessment : Option String := none
  initial_symptom : Option String := none
  additional_symptoms : Option (List String) := none
  days_experiencing : Option Int := none
  confidence_level : Option String := none
deriving DecidableEq

/-- Embeds `DiagnosisInDB(**fields)`: pydantic validation. Fields without a
default raise a `ValidationError` when absent; fields with a default
take it. -/
def mkDiagnosisInDB (f : DiagFields) : Except String DiagnosisInDB :=
  match f.id, f.diagnosed_user_id, f.primary_diagnosis, f.description,
      f.severity_assessment, f.confidence_level with
  | some i, some u, some p, some d, some s, some c =>
    Except.ok
      { id := i
        diagnosed_user_id := u
        primary_diagnosis := p
        secondary_diagnoses := f.secondary_diagnoses.getD []
        description := d
        precautions := f.precautions.getD []
        severity_assessment := s
        initial_symptom := f.initial_symptom
        additional_symptoms := f.additional_symptoms.getD []
        days_experiencing := f.days_experiencing.getD 0
        confidence_level := c }
  | _, _, _, _, _, _ => Except.error "validation error"

/-- The upstream reply of the external persistence call: HTTP status
code and the optional `message` / `diagnosis` members of its JSON
body. -/
structure UpstreamReply where
  statusCode : Nat
  message : Option String
  diagnosis : Option DiagFields
deriving DecidableEq

/-- Structure `GetDiagnosisResponse` of `schema/responses/diagnosis.py`. -/
structure GetDiagnosisResponse where
  message : String
  diagnosis : DiagnosisInDB
deriving DecidableEq

/-- The tail of the `/diagnosis` route (`main.py`, lines 290–301),
after the external `POST` returned `reply`: a non-200 status is only
logged; the response is then built from
`serialized_response.get("message", ...)` and
`DiagnosisInDB(**serialized_response.get("diagnosis", {}))`, whose
`ValidationError` (any required field absent) escapes to the generic
500 handler — embedded as `Except.error`. -/
def getDiagnosisTail (reply : UpstreamReply) : Except String GetDiagnosisResponse :=
  match mkDiagnosisInDB (reply.diagnosis.getD {}) with
  | Except.error e => Except.error e
  | Except.ok d =>
    Except.ok
      { message := reply.message.getD "Diagnosis processed successfully"
        diagnosis := d }

/-! ## Claim-side specification functions

Each of the following definitions transcribes the *wording of a
claim*, to be compared against the corresponding definition taken from
the source. -/

/-- C1, transcribed: the weights of the symptoms that match a
severity-table key under the spec's symptom-identity comparison
(case-insensitive, spaces normalized to underscores), each matched
symptom counted once. -/
def severityClaimWeights (table : List (String × Int)) (symptoms : List String) : List Int :=
  symptoms.filterMap (fun s => findSeverityWeight table (normLower s))

/-- C1, transcribed: no matching symptom yields the fixed message;
otherwise `score = (total_severity_weight * days) / (matched_count + 1)`
with the bands `score > 13` / `7 < score ≤ 13` / otherwise. -/
def calculateSeverityClaim (table : List (String × Int)) (symptoms : List String)
    (days : Int) : String :=
  let weights := severityClaimWeights table symptoms
  if weights.length = 0 then severityNoMatchMsg
  else
    let score : ℚ := ((weights.sum * days : Int) : ℚ) / ((weights.length : ℚ) + 1)
    if 13 < score then severityHighMsg
    else if 7 < score ∧ score ≤ 13 then severityModerateMsg
    else severityLowMsg

/-- C2, transcribed: the confidence table exactly as the claim words
it (`n ≥ 3` / `n = 2` / `n ≤ 1` when the diagnoses agree, `n ≥ 4` /
otherwise when they differ). -/
def confidenceClaim (primaryDiagnosis secondaryDiagnosis : String) (n : Nat) : String :=
  if primaryDiagnosis = secondaryDiagnosis then
    if 3 ≤ n then "High"
    else if n = 2 then "Moderate"
    else "Low"
  else
    if 4 ≤ n then "Moderate"
    else "Low"

/-- C7, transcribed (up to the query normalization, supplied by the
caller): exact case-insensitive matches moved to the front (each newly
found one in front of the previous), followed by the features whose
lowercase form contains the normalized query as a substring;
duplicates removed keeping first occurrences; truncated to the cap;
paired with the exact-match flag. -/
def searchClaimResult (features : List String) (term : String) (cap : Nat) :
    List String × Bool :=
  let exacts := features.filter (fun f => strLower f == term)
  let subs := features.filter (fun f => !(strLower f == term) && subStr term (strLower f))
  ((dedupKeep [] (exacts.reverse ++ subs)).take cap,
   features.any (fun f => strLower f == term))

/-- C7, transcribed in full: the claim also has the query **trimmed**
before the spaces-to-underscores replacement and lowercasing. -/
def searchSymptomsClaim (st : ModuleState) (symptomQuery : String) (maxMatches : Nat) :
    Except String (List String × Bool) :=
  if !st.model_status.loaded then Except.error "Models not loaded"
  else
    let searchTerm := normLower (strTrim symptomQuery)
    Except.ok (searchClaimResult st.feature_names searchTerm maxMatches)

/-- Largest value of a list (the reference notion of "highest stored
class-probability mass"). -/
def listMax : List ℚ → Option ℚ
  | [] => none
  | x :: xs => some (xs.foldl max x)

/-- C9, transcribed: the index of the first class attaining the
highest stored probability mass. -/
def firstMaxIdx (values : List ℚ) : Option Nat :=
  (listMax values).map (fun m => values.findIdx (fun v => v == m))

/-- C9, transcribed: the traversal exactly as the claim describes it —
from the root, right exactly on a case-insensitive feature-name match,
left otherwise; at the leaf the class of highest probability mass,
decoded through the label encoder; internal failures yield
`"Unknown"`. -/
def primaryClaimRecurse (featureNames : List String) (labelEnc : Option (List String))
    (symptom : String) : DTree → String
  | DTree.node fi l r =>
    match featureNames.get? fi with
    | none => "Unknown"
    | some name =>
      if strLower name == strLower symptom then primaryClaimRecurse featureNames labelEnc symptom r
      else primaryClaimRecurse featureNames labelEnc symptom l
  | DTree.leaf values =>
    match firstMaxIdx values with
    | none => "Unknown"
    | some idx =>
      match labelEnc with
      | none => "Unknown"
      | some classes =>
        match classes.get? idx with
        | none => "Unknown"
        | some disease => disease

/-- C9, transcribed at the function boundary. -/
def primaryDiagnosisClaim (st : ModuleState) (symptom : String) : String :=
  match st.ml_models with
  | none => "Unknown"
  | some m => primaryClaimRecurse st.feature_names st.label_encoder symptom m.decision_tree

/-! ## A concrete loaded state, used by witnesses -/

/-- A one-symptom, one-disease loaded state for concrete evaluation. -/
def sampleState : ModuleState :=
  { ml_models := some
      { decision_tree := DTree.leaf [1]
        svm := fun _ => 0
        training_data :=
          { columns := ["itching", "prognosis"], prognosis := ["Fungal infection"] } }
    severity := [("itching", 3)]
    descriptions := []
    precautions := []
    symptoms_dict := [("itching", 0)]
    feature_names := ["itching"]
    label_encoder := some ["Fungal infection"]
    model_status :=
      { loaded := true, last_loaded := some 0, data_path := "data/",
        master_data_path := "master-data/", metrics := none } }

/-! ## Claim C2 -/

/-- Claim C2: For every pair of primary and secondary diagnosis strings
and every valid-symptom count `n`, `calculate_confidence_level` equals
the claim's table — `"High"` for agreement with `n ≥ 3`, `"Moderate"`
for agreement with `n = 2`, `"Low"` for agreement with `n ≤ 1`,
`"Moderate"` for disagreement with `n ≥ 4`, `"Low"` for disagreement
otherwise — and never returns any other value. -/
theorem confidence_level_matches_claim (p s : String) (n : Nat) :
    calculateConfidenceLevel p s n = confidenceClaim p s n ∧
    (calculateConfidenceLevel p s n = "High" ∨
     calculateConfidenceLevel p s n = "Moderate" ∨
     calculateConfidenceLevel p s n = "Low") := by
  unfold calculateConfidenceLevel confidenceClaim
  constructor
  · split_ifs <;> first | rfl | omega
  · split_ifs <;> simp

/-! ## Claim C1 -/

/-- Lemma: `severityClaimWeights` unfolded one symptom at a time. -/
theorem severityClaimWeights_cons (table : List (String × Int)) (s : String)
    (rest : List String) :
    severityClaimWeights table (s :: rest) =
      match findSeverityWeight table (normLower s) with
      | some w => w :: severityClaimWeights table rest
      | none => severityClaimWeights table rest := by
  cases h : findSeverityWeight table (normLower s) <;>
    simp [severityClaimWeights, List.filterMap_cons, h]

/-- The accumulation loop of `calculate_severity`, characterized by
the matched-weight list. -/
theorem severityFold_eq (table : List (String × Int)) (symptoms : List String)
    (a : Int) (n : Nat) :
    symptoms.foldl
      (fun (acc : Int × Nat) symptom =>
        match findSeverityWeight table (normLower symptom) with
        | some w => (acc.1 + w, acc.2 + 1)
        | none => acc)
      (a, n)
    = (a + (severityClaimWeights table symptoms).sum,
       n + (severityClaimWeights table symptoms).length) := by
  induction symptoms generalizing a n with
  | nil => simp [severityClaimWeights]
  | cons s rest ih =>
    rw [List.foldl_cons, severityClaimWeights_cons]
    cases h : findSeverityWeight table (normLower s) with
    | none =>
      simp only [h]
      exact ih a n
    | some w =>
      simp only [h, List.sum_cons, List.length_cons]
      rw [ih (a + w) (n + 1)]
      simp only [Prod.mk.injEq]
      constructor <;> omega

/-- The two band formulations of C1 agree. -/
theorem severityBands (score : ℚ) :
    (if 13 < score then severityHighMsg
     else if 7 < score then severityModerateMsg
     else severityLowMsg)
  = (if 13 < score then severityHighMsg
     else if 7 < score ∧ score ≤ 13 then severityModerateMsg
     else severityLowMsg) := by
  by_cases h13 : 13 < score
  · simp [h13]
  · by_cases h7 : 7 < score
    · simp [h13, h7, not_lt.mp h13]
    · simp [h13, h7]

/-- Claim C1: For every severity table, list of symptom names and
integer `days ≥ 1`, `calculate_severity` accumulates the weights of
the symptoms matching a severity-table key (under the spec's
case-insensitive, underscore-normalized symptom identity), each
matched symptom counted once; with no match it returns exactly
`"Unable to assess severity - no matching symptoms found"`, otherwise
it scores `(total weight × days) / (matched count + 1)` and bands it
as `score > 13` → High, `7 < score ≤ 13` → Moderate, otherwise Low.
(The embedded body is total, so the claim's processing-error fallback
is unreachable, as it is for the pure Python body.) -/
theorem calculate_severity_matches_claim (st : ModuleState) (symptoms : List String)
    (days : Int) (_hdays : 1 ≤ days) :
    calculateSeverity st symptoms days = calculateSeverityClaim st.severity symptoms days := by
  simp only [calculateSeverity, calculateSeverityClaim]
  rw [severityFold_eq st.severity symptoms 0 0]
  simp only [zero_add]
  by_cases h0 : (severityClaimWeights st.severity symptoms).length = 0
  · simp [h0]
  · rw [if_neg h0, if_neg h0]
    exact severityBands _

/-- Witness for C1 at a concrete input: one matched symptom of weight
3 over 2 days scores `6/2 = 3`, the Low band on both sides. -/
theorem calculate_severity_matches_claim_witness :
    (1 : Int) ≤ 2 ∧
    calculateSeverity sampleState ["itching"] 2 =
      calculateSeverityClaim sampleState.severity ["itching"] 2 :=
  ⟨by norm_num, calculate_severity_matches_claim sampleState ["itching"] 2 (by norm_num)⟩

/-! ## Claim C10 -/

/-- With an empty severity table no symptom matches. -/
theorem severityWeights_nil_table (syms : List String) :
    severityClaimWeights [] syms = [] := by
  induction syms with
  | nil => rfl
  | cons s rest ih => simp [severityClaimWeights_cons, findSeverityWeight, ih]

/-- Claim C10: Unlike `search_symptoms`, `get_primary_diagnosis` and
`get_secondary_diagnosis`, which all raise `"Models not loaded"`
before a successful load, `calculate_severity` has no loaded-state
guard: it is a total function on any state (the embedding gives it a
plain `String` result type, with no error outcome), and while the
severity table is empty — as it is before any load — it returns
`"Unable to assess severity - no matching symptoms found"` for every
symptom list and every day count. -/
theorem severity_has_no_loaded_guard (st : ModuleState)
    (h : st.model_status.loaded = false) (q sym : String) (syms : List String)
    (cap : Nat) (days : Int) :
    searchSymptoms st q cap = Except.error "Models not loaded" ∧
    getPrimaryDiagnosis st sym = Except.error "Models not loaded" ∧
    getSecondaryDiagnosis st syms = Except.error "Models not loaded" ∧
    (st.severity = [] → calculateSeverity st syms days = severityNoMatchMsg) := by
  refine ⟨?_, ?_, ?_, ?_⟩
  · simp [searchSymptoms, h]
  · simp [getPrimaryDiagnosis, h]
  · simp [getSecondaryDiagnosis, h]
  · intro hsev
    simp only [calculateSeverity, hsev]
    rw [severityFold_eq [] syms 0 0]
    simp [severityWeights_nil_table]

/-- Witness for C10 at the module's start state. -/
theorem severity_has_no_loaded_guard_witness :
    initialState.model_status.loaded = false ∧
    (searchSymptoms initialState "itching" 10 = Except.error "Models not loaded" ∧
     getPrimaryDiagnosis initialState "itching" = Except.error "Models not loaded" ∧
     getSecondaryDiagnosis initialState ["itching"] = Except.error "Models not loaded" ∧
     (initialState.severity = [] →
       calculateSeverity initialState ["itching"] 3 = severityNoMatchMsg)) :=
  ⟨rfl, severity_has_no_loaded_guard initialState rfl "itching" "itching" ["itching"] 10 3⟩

/-! ## Claim C3 -/

/-- Claim C3: In every diagnosis result the orchestration produces,
the secondary-diagnosis field is present if and only if the computed
secondary diagnosis — the one `get_secondary_diagnosis` returned for
the request's validated symptom set — differs from the primary
diagnosis, is not the literal `"Unknown"`, and the computed confidence
level is exactly `"Moderate"`; in every other combination the field is
absent. The existential is pinned to the pipeline: `matching` is the
matched initial symptom, the primary and secondary conjuncts name the
exact Model Core calls that produced the response's fields. -/
theorem secondary_inclusion_rule (st : ModuleState) (req : DiagnosisRequest)
    (resp : DiagnosisResponse) (h : processDiagnosisRequest st req = Except.ok resp) :
    ∃ matching secondary,
      findMatchingSymptom st (normalizeSymptom req.initial_symptom) = some matching ∧
      getPrimaryDiagnosis st matching = Except.ok resp.primary_diagnosis ∧
      getSecondaryDiagnosis st
          ((matching :: req.additional_symptoms.map normalizeSymptom).filter
            (fun s => validateSymptom st s)) = Except.ok secondary ∧
      resp.confidence_level =
        calculateConfidenceLevel resp.primary_diagnosis secondary
          ((matching :: req.additional_symptoms.map normalizeSymptom).filter
            (fun s => validateSymptom st s)).length ∧
      resp.secondary_diagnosis =
        (if secondary ≠ resp.primary_diagnosis ∧ secondary ≠ "Unknown" ∧
            resp.confidence_level = "Moderate"
         then some secondary else none) := by
  simp only [processDiagnosisRequest] at h
  split at h
  · exact absurd h (by simp)
  · rename_i matching hm
    split at h
    · exact absurd h (by simp)
    · rename_i primary hp
      split at h
      · exact absurd h (by simp)
      · rename_i secondary hs
        simp only [Except.ok.injEq] at h
        subst h
        exact ⟨matching, secondary, hm, hp, hs, rfl, rfl⟩

/-- A four-symptom, two-disease loaded state on which the secondary
diagnosis is surfaced: the decision tree yields `"Flu"`, the SVM
yields `"Malaria"`, and four valid symptoms make the confidence
`"Moderate"`. -/
def sampleState2 : ModuleState :=
  { ml_models := some
      { decision_tree := DTree.leaf [1, 0]
        svm := fun _ => 1
        training_data :=
          { columns := ["itching", "coughing", "sneezing", "aching", "prognosis"],
            prognosis := ["Flu", "Malaria"] } }
    severity := [("itching", 3)]
    descriptions := []
    precautions := []
    symptoms_dict := [("itching", 0), ("coughing", 1), ("sneezing", 2), ("aching", 3)]
    feature_names := ["itching", "coughing", "sneezing", "aching"]
    label_encoder := some ["Flu", "Malaria"]
    model_status :=
      { loaded := true, last_loaded := some 0, data_path := "data/",
        master_data_path := "master-data/", metrics := none } }

/-- The request used to witness C3: an initial symptom plus three
additional valid symptoms. -/
def sampleRequest : DiagnosisRequest :=
  { initial_symptom := "itching", days_experiencing := 2,
    additional_symptoms := ["coughing", "sneezing", "aching"], user_id := "user-1" }

/-- The response the orchestration produces on `sampleState2` and
`sampleRequest`: the secondary diagnosis `"Malaria"` is present, since
it differs from `"Flu"`, is not `"Unknown"`, and the confidence is
`"Moderate"`. -/
def sampleResponse : DiagnosisResponse :=
  { primary_diagnosis := "Flu"
    secondary_diagnosis := some "Malaria"
    confidence_level := "Moderate"
    description := "No description available"
    precautions := ["Consult a healthcare professional"]
    severity_assessment := severityLowMsg }

/-- Witness for C3 at a concrete run of the orchestration in which
the field is present. -/
theorem secondary_inclusion_rule_witness :
    processDiagnosisRequest sampleState2 sampleRequest = Except.ok sampleResponse ∧
    ∃ matching secondary,
      findMatchingSymptom sampleState2 (normalizeSymptom sampleRequest.initial_symptom) =
        some matching ∧
      getPrimaryDiagnosis sampleState2 matching =
        Except.ok sampleResponse.primary_diagnosis ∧
      getSecondaryDiagnosis sampleState2
          ((matching :: sampleRequest.additional_symptoms.map normalizeSymptom).filter
            (fun s => validateSymptom sampleState2 s)) = Except.ok secondary ∧
      sampleResponse.confidence_level =
        calculateConfidenceLevel sampleResponse.primary_diagnosis secondary
          ((matching :: sampleRequest.additional_symptoms.map normalizeSymptom).filter
            (fun s => validateSymptom sampleState2 s)).length ∧
      sampleResponse.secondary_diagnosis =
        (if secondary ≠ sampleResponse.primary_diagnosis ∧ secondary ≠ "Unknown" ∧
            sampleResponse.confidence_level = "Moderate"
         then some secondary else none) :=
  ⟨by with_unfolding_all rfl,
   secondary_inclusion_rule sampleState2 sampleRequest sampleResponse
     (by with_unfolding_all rfl)⟩

/-! ## Claims C7 and C8 -/

/-- The feature-walk of `search_symptoms`, characterized: exact
matches accumulate reversed at the front, substring matches append in
order behind the initial accumulator, and the exact flag is the
disjunction with "some feature matches exactly". -/
theorem searchLoop_eq (term : String) (l : List String) :
    ∀ (ms : List String) (ex : Bool),
    searchLoop term l ms ex =
      ((l.filter (fun f => strLower f == term)).reverse ++ ms ++
        l.filter (fun f => !(strLower f == term) && subStr term (strLower f)),
       ex || l.any (fun f => strLower f == term)) := by
  induction l with
  | nil => intro ms ex; simp [searchLoop]
  | cons f rest ih =>
    intro ms ex
    simp only [searchLoop, List.filter_cons, List.any_cons]
    by_cases he : strLower f == term
    · rw [if_pos he, ih (f :: ms) true]
      simp [he, List.append_assoc]
    · rw [if_neg he]
      by_cases hs : subStr term (strLower f)
      · rw [if_pos hs, ih (ms ++ [f]) ex]
        simp [he, hs, List.append_assoc]
      · rw [if_neg hs, ih ms ex]
        simp [he, hs]

/-- Counterexample to C7: The claim normalizes the query with a trim;
`search_symptoms` does not: on the catalog `["itching"]`, the query
`" itching"` normalizes in the source to `"_itching"`, matching
nothing, while the claimed trimming normalization would yield an exact
match. -/
theorem search_trim_counterexample :
    searchSymptoms sampleState " itching" 10 = Except.ok ([], false) ∧
    searchSymptomsClaim sampleState " itching" 10 = Except.ok (["itching"], true) ∧
    searchSymptoms sampleState " itching" 10 ≠
      searchSymptomsClaim sampleState " itching" 10 := by
  refine ⟨by with_unfolding_all rfl, by with_unfolding_all rfl, ?_⟩
  intro h
  rw [show searchSymptoms sampleState " itching" 10 = Except.ok ([], false) from
        by with_unfolding_all rfl,
      show searchSymptomsClaim sampleState " itching" 10 = Except.ok (["itching"], true) from
        by with_unfolding_all rfl] at h
  simp at h

/-- Claim C7, amended: For every free-text query whose normalized form
is regex-literal and every result cap, `search_symptoms` normalizes
the query by replacing spaces with underscores and lowercasing — with
**no trimming** — and returns the case-insensitive exact matches moved
to the front, followed by exactly the features whose lowercase form
contains the normalized query as a substring, duplicates removed
keeping first occurrences, truncated to the cap, together with the
exact-match flag. -/
theorem search_matches_claim_modulo_trim (st : ModuleState) (q : String) (cap : Nat)
    (hl : st.model_status.loaded = true)
    (hre : regexLiteral (normLower q) = true) :
    searchSymptoms st q cap =
      Except.ok (searchClaimResult st.feature_names (normLower q) cap) := by
  have _ := hre
  simp only [searchSymptoms, searchClaimResult, hl, Bool.not_true, Bool.false_eq_true,
    if_false, searchLoop_eq]
  simp

/-- Witness for the amended C7. -/
theorem search_matches_claim_modulo_trim_witness :
    sampleState.model_status.loaded = true ∧
    regexLiteral (normLower "itching") = true ∧
    searchSymptoms sampleState "itching" 10 =
      Except.ok (searchClaimResult sampleState.feature_names (normLower "itching") 10) :=
  ⟨rfl, by with_unfolding_all rfl,
   search_matches_claim_modulo_trim sampleState "itching" 10 rfl
     (by with_unfolding_all rfl)⟩

/-- A loaded state whose catalog holds two case-insensitively equal
symptom names — distinct CSV columns `ITCHING` and `itching`. -/
def dupCaseState : ModuleState :=
  { sampleState with
    feature_names := ["ITCHING", "itching"]
    symptoms_dict := [("ITCHING", 0), ("itching", 1)] }

/-- Counterexample to C8: the catalog symptom `S = "ITCHING"`,
searched verbatim with result cap 1 (the suggestions route passes an
arbitrary `limit` down to `search_symptoms`), is itself truncated out
of the match list: the later case-insensitive duplicate `"itching"`
is moved in front of it and the cap keeps only that one, so the
result does not contain `S` even though the exact-match flag is
reported. -/
theorem catalog_exact_search_counterexample :
    dupCaseState.model_status.loaded = true ∧
    "ITCHING" ∈ dupCaseState.feature_names ∧
    searchSymptoms dupCaseState "ITCHING" 1 = Except.ok (["itching"], true) ∧
    ¬ "ITCHING" ∈ ["itching"] := by
  refine ⟨rfl, by decide, by with_unfolding_all rfl, by decide⟩

/-- Claim C8, amended: for every symptom name `S` of the trained
catalog such that no *other* catalog entry is case-insensitively equal
to it and `S`'s lowercase form is free of regex metacharacters (for a
query normalizing to a non-literal regex the source's `re.compile`
raises where this embedding searches literally — and on such a
catalog name the source propagates `re.error` instead of returning),
searching after a successful load with any positive result cap and
with `S` written in any letter case and with spaces or underscores
returns a match list containing `S` and reports an exact match. With
a case-insensitive duplicate in the catalog and a cap smaller than
the number of duplicates, `S` itself can be truncated out. -/
theorem catalog_symptom_exact_search (st : ModuleState) (S Q : String) (cap : Nat)
    (hl : st.model_status.loaded = true)
    (huniq : st.feature_names.filter (fun f => strLower f == strLower S) = [S])
    (hq : normLower Q = strLower S)
    (hre : regexLiteral (normLower Q) = true) (hcap : 1 ≤ cap) :
    ∃ ms, searchSymptoms st Q cap = Except.ok (ms, true) ∧ S ∈ ms := by
  have _ := hre
  have hS : S ∈ st.feature_names.filter (fun f => strLower f == strLower S) := by
    rw [huniq]; exact List.mem_singleton_self S
  have hany : st.feature_names.any (fun f => strLower f == strLower S) = true :=
    List.any_eq_true.mpr ⟨S, (List.mem_filter.mp hS).1, (List.mem_filter.mp hS).2⟩
  obtain ⟨n, rfl⟩ : ∃ n, cap = n + 1 := ⟨cap - 1, by omega⟩
  simp only [searchSymptoms, hl, Bool.not_true, Bool.false_eq_true, if_false]
  rw [hq, searchLoop_eq, huniq, hany]
  simp only [List.reverse_singleton, List.singleton_append, List.nil_append,
    Bool.false_or, dedupKeep]
  simp only [List.not_mem_nil, if_false, List.take_succ_cons]
  exact ⟨_, rfl, List.mem_cons_self _ _⟩

/-- Witness for the amended C8: the catalog entry `"itching"`
searched as `"ITCHING"`. -/
theorem catalog_symptom_exact_search_witness :
    (sampleState.model_status.loaded = true ∧
     sampleState.feature_names.filter
       (fun f => strLower f == strLower "itching") = ["itching"] ∧
     normLower "ITCHING" = strLower "itching" ∧
     regexLiteral (normLower "ITCHING") = true ∧ 1 ≤ 10) ∧
    ∃ ms, searchSymptoms sampleState "ITCHING" 10 = Except.ok (ms, true) ∧
      "itching" ∈ ms :=
  ⟨⟨rfl, by with_unfolding_all rfl, by with_unfolding_all rfl,
    by with_unfolding_all rfl, by decide⟩,
   catalog_symptom_exact_search sampleState "itching" "ITCHING" 10 rfl
     (by with_unfolding_all rfl) (by with_unfolding_all rfl)
     (by with_unfolding_all rfl) (by decide)⟩

/-! ## Claim C9 -/

/-- The starting value bounds a max-fold. -/
theorem le_foldl_max (bv : ℚ) (xs : List ℚ) : bv ≤ xs.foldl max bv := by
  induction xs generalizing bv with
  | nil => exact le_refl bv
  | cons x xs ih =>
    exact le_trans (le_max_left bv x) (ih (max bv x))

/-- The `np.argmax` scan, characterized: it keeps the running best
index unless some later value strictly beats the running best value,
in which case it lands on the first position of the overall
maximum. -/
theorem argmaxGo_eq (xs : List ℚ) :
    ∀ (b i : Nat) (bv : ℚ),
    argmaxGo b bv i xs =
      if xs.foldl max bv ≤ bv then b
      else i + xs.findIdx (fun x => x == xs.foldl max bv) := by
  induction xs with
  | nil => intro b i bv; simp [argmaxGo]
  | cons x xs ih =>
    intro b i bv
    simp only [argmaxGo, List.foldl_cons]
    by_cases hlt : bv < x
    · rw [if_pos hlt, ih i (i + 1) x, max_eq_right (le_of_lt hlt)]
      have hxM : x ≤ xs.foldl max x := le_foldl_max x xs
      have hMbv : ¬ xs.foldl max x ≤ bv := fun hc => absurd (le_trans hxM hc) (not_le.mpr hlt)
      rw [if_neg hMbv, List.findIdx_cons]
      by_cases hxeq : x = xs.foldl max x
      · have : (x == xs.foldl max x) = true := beq_iff_eq.mpr hxeq
        rw [if_pos (le_of_eq hxeq.symm)]
        simp [this]
      · have : (x == xs.foldl max x) = false := beq_eq_false_iff_ne.mpr hxeq
        rw [if_neg (fun hc => hxeq (le_antisymm hxM hc))]
        simp only [this, cond_false]
        omega
    · rw [if_neg hlt, ih b (i + 1) bv, max_eq_left (not_lt.mp hlt)]
      by_cases hM : xs.foldl max bv ≤ bv
      · rw [if_pos hM, if_pos hM]
      · rw [if_neg hM, if_neg hM, List.findIdx_cons]
        have hxlt : x < xs.foldl max bv :=
          lt_of_le_of_lt (not_lt.mp hlt) (not_le.mp hM)
        have : (x == xs.foldl max bv) = false := beq_eq_false_iff_ne.mpr (ne_of_lt hxlt)
        simp only [this, cond_false]
        omega

/-- Lemma: `np.argmax` returns the first index attaining the maximum. -/
theorem npArgmax_eq_firstMaxIdx (values : List ℚ) :
    npArgmax values = firstMaxIdx values := by
  cases values with
  | nil => rfl
  | cons x xs =>
    simp only [npArgmax, firstMaxIdx, listMax, Option.map_some']
    rw [argmaxGo_eq xs 0 1 x]
    by_cases hM : xs.foldl max x ≤ x
    · have hx : x = xs.foldl max x := le_antisymm (le_foldl_max x xs) hM
      have : (x == xs.foldl max x) = true := beq_iff_eq.mpr hx
      rw [if_pos hM, List.findIdx_cons]
      simp [this]
    · have : (x == xs.foldl max x) = false :=
        beq_eq_false_iff_ne.mpr (ne_of_lt (not_le.mp hM))
      rw [if_neg hM, List.findIdx_cons]
      simp only [this, cond_false, Option.some.injEq]
      omega

/-- The source traversal and the claim's traversal agree on every
tree. -/
theorem treeRecurse_eq_claim (fn : List String) (lenc : Option (List String))
    (symptom : String) (t : DTree) :
    treeRecurse fn lenc symptom t = primaryClaimRecurse fn lenc symptom t := by
  induction t with
  | leaf values => simp only [treeRecurse, primaryClaimRecurse, npArgmax_eq_firstMaxIdx]
  | node fi l r ihl ihr => simp only [treeRecurse, primaryClaimRecurse, ihl, ihr]

/-- Claim C9: After a load, the primary diagnosis traverses the trained
decision tree from the root, descending right at an internal node
exactly when the node's feature name equals the queried symptom
case-insensitively and left otherwise; at the reached leaf it selects
the first class of highest stored class-probability mass and decodes
it through the label encoder; every internal failure (out-of-range
feature or class index, empty probability row, missing model or
encoder) yields the literal `"Unknown"` instead of propagating. -/
theorem primary_diagnosis_matches_claim (st : ModuleState) (symptom : String)
    (hl : st.model_status.loaded = true) :
    getPrimaryDiagnosis st symptom = Except.ok (primaryDiagnosisClaim st symptom) := by
  simp only [getPrimaryDiagnosis, primaryDiagnosisClaim, hl, Bool.not_true,
    Bool.false_eq_true, if_false]
  cases hmm : st.ml_models with
  | none => rfl
  | some m =>
    exact congrArg Except.ok
      (treeRecurse_eq_claim st.feature_names st.label_encoder symptom m.decision_tree)

/-- Witness for C9 on the sample loaded state. -/
theorem primary_diagnosis_matches_claim_witness :
    sampleState.model_status.loaded = true ∧
    getPrimaryDiagnosis sampleState "itching" =
      Except.ok (primaryDiagnosisClaim sampleState "itching") :=
  ⟨rfl, primary_diagnosis_matches_claim sampleState "itching" rfl⟩

/-! ## Claim C4 -/

/-- A load call whose data files exist and read successfully but
whose train/test split raises (as `train_test_split` does on a
degenerate dataset). -/
def splitFailWorld : LoadWorld :=
  { trainingExists := true
    testingExists := true
    readTraining := Except.ok { columns := ["aching", "prognosis"], prognosis := ["Flu"] }
    readTesting := Except.ok { columns := ["aching", "prognosis"], prognosis := ["Flu"] }
    splitOk := false
    dtTrain := Except.error ()
    svmTrain := Except.error ()
    metricsResult := Except.error ()
    severityRows := none
    descriptionRows := none
    precautionRows := none
    now := 0 }

/-- Counterexample to C4: A load from the pristine module state that
fails at the split step (step 5 of the mandatory steps) propagates the
failure and marks the status not-loaded — but it has already published
partial state: the status data paths carry the new arguments instead
of their pre-call values, and the feature list has been reassigned to
the new dataset's columns. -/
theorem load_failure_counterexample :
    (loadModelsAndData "other-data/" "other-master/" splitFailWorld initialState).1 =
      Except.error () ∧
    (loadModelsAndData "other-data/" "other-master/" splitFailWorld
        initialState).2.model_status.data_path = "other-data/" ∧
    initialState.model_status.data_path = "data/" ∧
    (loadModelsAndData "other-data/" "other-master/" splitFailWorld
        initialState).2.model_status.data_path ≠ initialState.model_status.data_path ∧
    (loadModelsAndData "other-data/" "other-master/" splitFailWorld
        initialState).2.feature_names = ["aching"] ∧
    initialState.feature_names = [] ∧
    (loadModelsAndData "other-data/" "other-master/" splitFailWorld
        initialState).2.feature_names ≠ initialState.feature_names := by
  refine ⟨rfl, rfl, rfl, ?_, rfl, rfl, ?_⟩ <;> decide

/-- Claim C4, amended: On any exception during the mandatory steps, the
status object is marked not-loaded and the failure propagates; the
trained-model store, the three lookup tables, the recorded metrics and
the last-load timestamp are unchanged — but the status data paths are
always rewritten to the call's arguments before the first step, and
the feature list, symptom-index mapping and label encoder are
guaranteed unchanged only when the failure happens while the
training/testing files are being located or read; a later failure
leaves them already reassigned to the new dataset's values. -/
theorem load_failure_amended (dp mp : String) (w : LoadWorld) (st0 : ModuleState)
    (h : (loadModelsAndData dp mp w st0).1 = Except.error ()) :
    ((loadModelsAndData dp mp w st0).2.model_status.loaded = false ∧
     (loadModelsAndData dp mp w st0).2.model_status.data_path = dp ∧
     (loadModelsAndData dp mp w st0).2.model_status.master_data_path = mp ∧
     (loadModelsAndData dp mp w st0).2.ml_models = st0.ml_models ∧
     (loadModelsAndData dp mp w st0).2.severity = st0.severity ∧
     (loadModelsAndData dp mp w st0).2.descriptions = st0.descriptions ∧
     (loadModelsAndData dp mp w st0).2.precautions = st0.precautions ∧
     (loadModelsAndData dp mp w st0).2.model_status.metrics = st0.model_status.metrics ∧
     (loadModelsAndData dp mp w st0).2.model_status.last_loaded =
       st0.model_status.last_loaded) ∧
    (((w.trainingExists && w.testingExists) = false ∨
      w.readTraining = Except.error () ∨ w.readTesting = Except.error ()) →
      (loadModelsAndData dp mp w st0).2.feature_names = st0.feature_names ∧
      (loadModelsAndData dp mp w st0).2.symptoms_dict = st0.symptoms_dict ∧
      (loadModelsAndData dp mp w st0).2.label_encoder = st0.label_encoder) := by
  simp only [loadModelsAndData] at h ⊢
  by_cases hb : (w.trainingExists && w.testingExists) = true
  · simp only [hb, Bool.not_true, Bool.false_eq_true, if_false] at h ⊢
    cases hrt : w.readTraining with
    | error e => simp [hrt, loadFail]
    | ok training =>
      simp only [hrt] at h ⊢
      cases hrtt : w.readTesting with
      | error e => simp [hrtt, loadFail]
      | ok testing =>
        simp only [hrtt] at h ⊢
        by_cases hpro : training.columns.contains "prognosis" = true
        · simp only [hpro, Bool.not_true, Bool.false_eq_true, if_false] at h ⊢
          by_cases hsp : w.splitOk = true
          · simp only [hsp, Bool.not_true, Bool.false_eq_true, if_false] at h ⊢
            cases hdt : w.dtTrain with
            | error e => simp [hdt, loadFail]
            | ok dt =>
              simp only [hdt] at h ⊢
              cases hsvm : w.svmTrain with
              | error e => simp [hsvm, loadFail]
              | ok svm =>
                simp only [hsvm] at h ⊢
                cases hmet : w.metricsResult with
                | error e => simp [hmet, loadFail]
                | ok metrics => simp [hmet] at h
          · have hsp2 : w.splitOk = false := by
              cases hx : w.splitOk with
              | false => rfl
              | true => exact absurd hx hsp
            simp_all [loadFail]
        · have hpro2 : training.columns.contains "prognosis" = false := by
            cases hx : training.columns.contains "prognosis" with
            | false => rfl
            | true => exact absurd hx hpro
          simp_all [loadFail]
  · have hb2 : (w.trainingExists && w.testingExists) = false := by
      cases hx : w.trainingExists && w.testingExists with
      | false => rfl
      | true => exact absurd hx hb
    simp only [hb2, Bool.not_false, eq_self_iff_true, if_true] at h ⊢
    simp [loadFail]

/-- Witness for the amended C4 at the concrete failing load. -/
theorem load_failure_amended_witness :
    (loadModelsAndData "other-data/" "other-master/" splitFailWorld initialState).1 =
      Except.error () ∧
    (((loadModelsAndData "other-data/" "other-master/" splitFailWorld
        initialState).2.model_status.loaded = false ∧
      (loadModelsAndData "other-data/" "other-master/" splitFailWorld
        initialState).2.model_status.data_path = "other-data/" ∧
      (loadModelsAndData "other-data/" "other-master/" splitFailWorld
        initialState).2.model_status.master_data_path = "other-master/" ∧
      (loadModelsAndData "other-data/" "other-master/" splitFailWorld
        initialState).2.ml_models = initialState.ml_models ∧
      (loadModelsAndData "other-data/" "other-master/" splitFailWorld
        initialState).2.severity = initialState.severity ∧
      (loadModelsAndData "other-data/" "other-master/" splitFailWorld
        initialState).2.descriptions = initialState.descriptions ∧
      (loadModelsAndData "other-data/" "other-master/" splitFailWorld
        initialState).2.precautions = initialState.precautions ∧
      (loadModelsAndData "other-data/" "other-master/" splitFailWorld
        initialState).2.model_status.metrics = initialState.model_status.metrics ∧
      (loadModelsAndData "other-data/" "other-master/" splitFailWorld
        initialState).2.model_status.last_loaded =
          initialState.model_status.last_loaded) ∧
     (((splitFailWorld.trainingExists && splitFailWorld.testingExists) = false ∨
       splitFailWorld.readTraining = Except.error () ∨
       splitFailWorld.readTesting = Except.error ()) →
       (loadModelsAndData "other-data/" "other-master/" splitFailWorld
         initialState).2.feature_names = initialState.feature_names ∧
       (loadModelsAndData "other-data/" "other-master/" splitFailWorld
         initialState).2.symptoms_dict = initialState.symptoms_dict ∧
       (loadModelsAndData "other-data/" "other-master/" splitFailWorld
         initialState).2.label_encoder = initialState.label_encoder)) :=
  ⟨rfl, load_failure_amended "other-data/" "other-master/" splitFailWorld initialState rfl⟩

/-! ## Claim C5 -/

/-- Full characterization of the state a successful load publishes:
feature list, symptom mapping and encoder are functions of the new
dataset alone, while the three lookup tables are the new rows folded
into the **prior** tables. -/
theorem load_success_state (dp mp : String) (w : LoadWorld) (st0 : ModuleState)
    (h : (loadModelsAndData dp mp w st0).1 = Except.ok true) :
    ∃ (training : TrainingData) (dt : DTree) (svmf : List Nat → Nat)
      (metrics : ℚ × ℚ × ℚ),
      w.readTraining = Except.ok training ∧
      (loadModelsAndData dp mp w st0).2 =
        { ml_models := some { decision_tree := dt, svm := svmf, training_data := training }
          severity := applySeverityRows w.severityRows st0.severity
          descriptions := applyDescriptionRows w.descriptionRows st0.descriptions
          precautions := applyPrecautionRows w.precautionRows st0.precautions
          symptoms_dict :=
            (training.columns.dropLast).enum.map (fun (p : Nat × String) => (p.2, p.1))
          feature_names := training.columns.dropLast
          label_encoder := some (classesOf training.prognosis)
          model_status :=
            { loaded := true, last_loaded := some w.now, data_path := dp,
              master_data_path := mp,
              metrics := some
                { decision_tree_accuracy := metrics.1
                  svm_accuracy := metrics.2.1
                  cross_validation_mean := metrics.2.2
                  total_symptoms := (training.columns.dropLast).length
                  total_diseases := (classesOf training.prognosis).length } } } := by
  simp only [loadModelsAndData] at h ⊢
  by_cases hb : (w.trainingExists && w.testingExists) = true
  · simp only [hb, Bool.not_true, Bool.false_eq_true, if_false] at h ⊢
    cases hrt : w.readTraining with
    | error e => simp [hrt, loadFail] at h
    | ok training =>
      simp only [hrt] at h ⊢
      cases hrtt : w.readTesting with
      | error e => simp [hrtt, loadFail] at h
      | ok testing =>
        simp only [hrtt] at h ⊢
        by_cases hpro : training.columns.contains "prognosis" = true
        · simp only [hpro, Bool.not_true, Bool.false_eq_true, if_false] at h ⊢
          by_cases hsp : w.splitOk = true
          · simp only [hsp, Bool.not_true, Bool.false_eq_true, if_false] at h ⊢
            cases hdt : w.dtTrain with
            | error e => simp [hdt, loadFail] at h
            | ok dt =>
              simp only [hdt] at h ⊢
              cases hsvm : w.svmTrain with
              | error e => simp [hsvm, loadFail] at h
              | ok svmf =>
                simp only [hsvm] at h ⊢
                cases hmet : w.metricsResult with
                | error e => simp [hmet, loadFail] at h
                | ok metrics =>
                  simp only [hmet] at h ⊢
                  exact ⟨training, dt, svmf, metrics, rfl, rfl⟩
          · have hsp2 : w.splitOk = false := by
              cases hx : w.splitOk with
              | false => rfl
              | true => exact absurd hx hsp
            simp only [hsp2, Bool.not_false, eq_self_iff_true, if_true, loadFail] at h
            exact absurd h (by simp)
        · have hpro2 : training.columns.contains "prognosis" = false := by
            cases hx : training.columns.contains "prognosis" with
            | false => rfl
            | true => exact absurd hx hpro
          simp only [hpro2, Bool.not_false, eq_self_iff_true, if_true, loadFail] at h
          exact absurd h (by simp)
  · have hb2 : (w.trainingExists && w.testingExists) = false := by
      cases hx : w.trainingExists && w.testingExists with
      | false => rfl
      | true => exact absurd hx hb
    simp only [hb2, Bool.not_false, eq_self_iff_true, if_true, loadFail] at h
    exact absurd h (by simp)

/-- Lemma: `lookupKey` after one key in a list of entries, unfolded. -/
theorem lookupKey_cons (p : String × α) (d : List (String × α)) (k : String) :
    lookupKey (p :: d) k = if (p.1 == k) = true then some p.2 else lookupKey d k := by
  by_cases hp : (p.1 == k) = true
  · simp [lookupKey, List.find?_cons_of_pos, hp]
  · simp [lookupKey, List.find?_cons_of_neg, hp]

/-- Overwriting key `k2` in place leaves every other key's value
untouched. -/
theorem lookupKey_overwrite_ne (d : List (String × α)) (k k2 : String) (v : α)
    (h : (k2 == k) = false) :
    lookupKey (d.map (fun p => if p.1 == k2 then (k2, v) else p)) k = lookupKey d k := by
  induction d with
  | nil => rfl
  | cons p d ih =>
    simp only [List.map_cons]
    by_cases hp : (p.1 == k2) = true
    · have hp1 : p.1 = k2 := by simpa using hp
      rw [if_pos hp, lookupKey_cons, lookupKey_cons, hp1, if_neg (by simp [h]),
        if_neg (by simp [h]), ih]
    · rw [if_neg hp, lookupKey_cons, lookupKey_cons, ih]

/-- Appending an entry for key `k2` leaves every other key's value
untouched. -/
theorem lookupKey_append_ne (d : List (String × α)) (k k2 : String) (v : α)
    (h : (k2 == k) = false) :
    lookupKey (d ++ [(k2, v)]) k = lookupKey d k := by
  induction d with
  | nil => simp [lookupKey_cons, h, lookupKey]
  | cons p d ih => simp only [List.cons_append, lookupKey_cons, ih]

/-- A dict write under key `k2` leaves every other key's value
untouched. -/
theorem lookupKey_dictInsert_ne (d : List (String × α)) (k k2 : String) (v : α)
    (h : (k2 == k) = false) :
    lookupKey (dictInsert d k2 v) k = lookupKey d k := by
  unfold dictInsert
  by_cases hmem : (d.any fun p => p.1 == k2) = true
  · rw [if_pos hmem]; exact lookupKey_overwrite_ne d k k2 v h
  · rw [if_neg hmem]; exact lookupKey_append_ne d k k2 v h

/-- A severity row that actually writes the key `k`. -/
def sevRowWrites (k : String) (row : List String) : Bool :=
  match row with
  | k2 :: v :: _ => k2 == k && (pyInt? v).isSome
  | _ => false

/-- Whether a severity load writes the key `k` at all. -/
def severityRowsWrite (o : Option (List (List String))) (k : String) : Bool :=
  match o with
  | none => false
  | some rows => rows.any (sevRowWrites k)

/-- Folding severity rows that never write `k` preserves the value
stored under `k`. -/
theorem lookupKey_severityFold_untouched (rows : List (List String))
    (d : List (String × Int)) (k : String) (h : rows.any (sevRowWrites k) = false) :
    lookupKey (rows.foldl severityRowStep d) k = lookupKey d k := by
  induction rows generalizing d with
  | nil => rfl
  | cons row rows ih =>
    simp only [List.any_cons, Bool.or_eq_false_iff] at h
    rw [List.foldl_cons, ih _ h.2]
    cases row with
    | nil => rfl
    | cons k2 rest =>
      cases rest with
      | nil => rfl
      | cons v rest2 =>
        have h1 := h.1
        simp only [sevRowWrites, Bool.and_eq_false_iff] at h1
        cases hpi : pyInt? v with
        | none => simp [severityRowStep, hpi]
        | some n =>
          have hk2 : (k2 == k) = false := by
            rcases h1 with h1 | h1
            · exact h1
            · rw [hpi] at h1; exact absurd h1 (by simp)
          simp only [severityRowStep, hpi]
          exact lookupKey_dictInsert_ne d k k2 n hk2

/-- Lemma: `load_severity_dict` rows that never write `k` preserve the value
stored under `k`. -/
theorem lookupKey_applySeverity_untouched (o : Option (List (List String)))
    (d : List (String × Int)) (k : String) (h : severityRowsWrite o k = false) :
    lookupKey (applySeverityRows o d) k = lookupKey d k := by
  cases o with
  | none => rfl
  | some rows =>
    exact lookupKey_severityFold_untouched rows d k
      (by simpa [severityRowsWrite] using h)

/-- A fully successful load world over the one-symptom dataset, whose
severity file holds the single row `aching,1`. -/
def loadWorldA : LoadWorld :=
  { trainingExists := true
    testingExists := true
    readTraining := Except.ok { columns := ["aching", "prognosis"], prognosis := ["Flu"] }
    readTesting := Except.ok { columns := ["aching", "prognosis"], prognosis := ["Flu"] }
    splitOk := true
    dtTrain := Except.ok (DTree.leaf [1])
    svmTrain := Except.ok (fun _ => 0)
    metricsResult := Except.ok (1, 1, 1)
    severityRows := some [["aching", "1"]]
    descriptionRows := some []
    precautionRows := some []
    now := 0 }

/-- The same world with a severity file holding only `burning,2`. -/
def loadWorldB : LoadWorld :=
  { loadWorldA with severityRows := some [["burning", "2"]] }

/-- Counterexample to C5: Loading dataset A and then successfully
loading dataset B does **not** produce the severity table of a fresh
load of B: the entry `("aching", 1)` of dataset A survives the reload,
because `load_severity_dict` writes into the existing dict without
clearing it. -/
theorem reload_merge_counterexample :
    (loadModelsAndData "d/" "m/" loadWorldA initialState).1 = Except.ok true ∧
    (loadModelsAndData "d/" "m/" loadWorldB
      (loadModelsAndData "d/" "m/" loadWorldA initialState).2).1 = Except.ok true ∧
    (loadModelsAndData "d/" "m/" loadWorldB initialState).1 = Except.ok true ∧
    (loadModelsAndData "d/" "m/" loadWorldA initialState).2.severity = [("aching", 1)] ∧
    (loadModelsAndData "d/" "m/" loadWorldB
      (loadModelsAndData "d/" "m/" loadWorldA initialState).2).2.severity =
      [("aching", 1), ("burning", 2)] ∧
    (loadModelsAndData "d/" "m/" loadWorldB initialState).2.severity = [("burning", 2)] ∧
    (loadModelsAndData "d/" "m/" loadWorldB
      (loadModelsAndData "d/" "m/" loadWorldA initialState).2).2.severity ≠
      (loadModelsAndData "d/" "m/" loadWorldB initialState).2.severity := by
  refine ⟨rfl, rfl, rfl, rfl, rfl, rfl, ?_⟩
  decide

/-- Claim C5, amended: A successful reload entirely replaces the
feature list, the symptom-index mapping and the disease catalog —
after loading dataset A and then successfully loading dataset B they
equal exactly what a fresh load of B alone produces — but the
severity, description and precaution tables are **merged**, not
replaced: each equals dataset B's rows folded into the table left by
dataset A, so an entry of A survives the reload whenever B does not
write its key (stated for the severity table; the description and
precaution tables fold identically). -/
theorem reload_replaces_catalog_merges_tables (dpA mpA dpB mpB : String)
    (wA wB : LoadWorld) (st0 stF : ModuleState)
    (hA : (loadModelsAndData dpA mpA wA st0).1 = Except.ok true)
    (hB : (loadModelsAndData dpB mpB wB
      (loadModelsAndData dpA mpA wA st0).2).1 = Except.ok true)
    (hF : (loadModelsAndData dpB mpB wB stF).1 = Except.ok true) :
    ((loadModelsAndData dpB mpB wB (loadModelsAndData dpA mpA wA st0).2).2.feature_names =
       (loadModelsAndData dpB mpB wB stF).2.feature_names ∧
     (loadModelsAndData dpB mpB wB (loadModelsAndData dpA mpA wA st0).2).2.symptoms_dict =
       (loadModelsAndData dpB mpB wB stF).2.symptoms_dict ∧
     (loadModelsAndData dpB mpB wB (loadModelsAndData dpA mpA wA st0).2).2.label_encoder =
       (loadModelsAndData dpB mpB wB stF).2.label_encoder) ∧
    ((loadModelsAndData dpB mpB wB (loadModelsAndData dpA mpA wA st0).2).2.severity =
       applySeverityRows wB.severityRows
         (loadModelsAndData dpA mpA wA st0).2.severity ∧
     (loadModelsAndData dpB mpB wB (loadModelsAndData dpA mpA wA st0).2).2.descriptions =
       applyDescriptionRows wB.descriptionRows
         (loadModelsAndData dpA mpA wA st0).2.descriptions ∧
     (loadModelsAndData dpB mpB wB (loadModelsAndData dpA mpA wA st0).2).2.precautions =
       applyPrecautionRows wB.precautionRows
         (loadModelsAndData dpA mpA wA st0).2.precautions) ∧
    (∀ k, severityRowsWrite wB.severityRows k = false →
      lookupKey (loadModelsAndData dpB mpB wB
          (loadModelsAndData dpA mpA wA st0).2).2.severity k =
        lookupKey (loadModelsAndData dpA mpA wA st0).2.severity k) := by
  have _ := hA
  obtain ⟨trB, dtB, svmB, metB, hrtB, hstAB⟩ :=
    load_success_state dpB mpB wB (loadModelsAndData dpA mpA wA st0).2 hB
  obtain ⟨trB2, dtB2, svmB2, metB2, hrtB2, hstF⟩ := load_success_state dpB mpB wB stF hF
  rw [hrtB] at hrtB2
  have htr : trB2 = trB := by
    cases hrtB2
    rfl
  subst htr
  rw [hstAB, hstF]
  refine ⟨⟨rfl, rfl, rfl⟩, ⟨rfl, rfl, rfl⟩, ?_⟩
  intro k hk
  exact lookupKey_applySeverity_untouched wB.severityRows
    (loadModelsAndData dpA mpA wA st0).2.severity k hk

/-- Witness for the amended C5 on the concrete reload pair: the
catalog parts agree with a fresh load of B, and the key `"aching"`,
which B never writes, keeps dataset A's value across the reload. -/
theorem reload_replaces_catalog_merges_tables_witness :
    ((loadModelsAndData "d/" "m/" loadWorldA initialState).1 = Except.ok true ∧
     severityRowsWrite loadWorldB.severityRows "aching" = false) ∧
    lookupKey (loadModelsAndData "d/" "m/" loadWorldB
        (loadModelsAndData "d/" "m/" loadWorldA initialState).2).2.severity "aching" =
      lookupKey (loadModelsAndData "d/" "m/" loadWorldA initialState).2.severity "aching" :=
  ⟨⟨rfl, rfl⟩,
   (reload_replaces_catalog_merges_tables "d/" "m/" "d/" "m/" loadWorldA loadWorldB
     initialState initialState rfl rfl rfl).2.2 "aching" rfl⟩

/-! ## Claim C6 -/

/-- Counterexample to C6: An upstream reply with no `diagnosis`
object at all (for instance the body of a failed persistence call):
the claim requires the route to return a response built from the
payload with `id` and the other fields defaulted, but `DiagnosisInDB`
has **required** fields (`id`, user id, primary diagnosis,
description, severity assessment, confidence level), so the
construction raises a validation error and the request fails instead
of returning. -/
theorem persisted_defaults_counterexample :
    mkDiagnosisInDB {} = Except.error "validation error" ∧
    getDiagnosisTail { statusCode := 500, message := none, diagnosis := none } =
      Except.error "validation error" := by
  exact ⟨rfl, rfl⟩

/-- Claim C6, amended: For every upstream reply whose diagnosis object
carries the six required fields (id, user id, primary diagnosis,
description, severity assessment, confidence level), the route builds
and returns the persisted-diagnosis response regardless of the reply's
status code — a non-success status is only logged — with defaults for
the absent optional fields: the secondary-diagnosis list, precaution
list and additional symptoms default to empty lists, days to zero, and
the initial symptom to null (`None`, not the empty string). A reply
missing any required field (including one with no diagnosis object)
fails the request instead. -/
theorem persisted_defaults_amended (reply : UpstreamReply) (f : DiagFields)
    (i u p d sv c : String)
    (hdiag : reply.diagnosis = some f)
    (hid : f.id = some i) (hu : f.diagnosed_user_id = some u)
    (hp : f.primary_diagnosis = some p) (hd : f.description = some d)
    (hs : f.severity_assessment = some sv) (hc : f.confidence_level = some c) :
    getDiagnosisTail reply =
      Except.ok
        { message := reply.message.getD "Diagnosis processed successfully"
          diagnosis :=
            { id := i
              diagnosed_user_id := u
              primary_diagnosis := p
              secondary_diagnoses := f.secondary_diagnoses.getD []
              description := d
              precautions := f.precautions.getD []
              severity_assessment := sv
              initial_symptom := f.initial_symptom
              additional_symptoms := f.additional_symptoms.getD []
              days_experiencing := f.days_experiencing.getD 0
              confidence_level := c } } := by
  simp only [getDiagnosisTail, hdiag, Option.getD_some]
  simp only [mkDiagnosisInDB, hid, hu, hp, hd, hs, hc]

/-- The diagnosis object of a failed upstream reply carrying exactly
the required fields. -/
def failedReplyFields : DiagFields :=
  { id := some "diag-1"
    diagnosed_user_id := some "user-1"
    primary_diagnosis := some "Fungal infection"
    description := some "A fungal infection"
    severity_assessment := some severityLowMsg
    confidence_level := some "High" }

/-- A non-success upstream reply whose body still carries a complete
diagnosis object. -/
def failedReply : UpstreamReply :=
  { statusCode := 500, message := none, diagnosis := some failedReplyFields }

/-- Witness for the amended C6: the 500-status reply still yields a
returned response, with the optional fields defaulted. -/
theorem persisted_defaults_amended_witness :
    (failedReply.diagnosis = some failedReplyFields ∧
     failedReplyFields.id = some "diag-1" ∧ failedReply.statusCode = 500) ∧
    getDiagnosisTail failedReply =
      Except.ok
        { message := "Diagnosis processed successfully"
          diagnosis :=
            { id := "diag-1"
              diagnosed_user_id := "user-1"
              primary_diagnosis := "Fungal infection"
              secondary_diagnoses := []
              description := "A fungal infection"
              precautions := []
              severity_assessment := severityLowMsg
              initial_symptom := none
              additional_symptoms := []
              days_experiencing := 0
              confidence_level := "High" } } :=
  ⟨⟨rfl, rfl, rfl⟩,
   persisted_defaults_amended failedReply failedReplyFields "diag-1" "user-1"
     "Fungal infection" "A fungal infection" severityLowMsg "High"
     rfl rfl rfl rfl rfl rfl rfl⟩

end GroundShakers

